import Mathlib

/-!
Shallow embedding of `src/configsettings.py` (configuration loader of the
autonomous-cross-domain-trading-hub repository).

Python strings are modelled as Lean `String`; the environment (`os.getenv`)
as a partial map `String → Option String`.  String manipulation helpers
(`split`, `strip`, `upper`, `lower`) are re-implemented by structural
recursion over the character list so that all definitions reduce inside the
kernel; they agree with the Python methods on the ASCII inputs this module
handles.  `raise ValueError` is modelled with `Except String`; log warnings
are modelled as explicitly returned lists of strings.
-/

set_option autoImplicit false

namespace ConfigSettings

/-- Characters of a string, lower-cased (Python `str.lower` on ASCII). -/
def strLower (s : String) : String :=
  ⟨s.data.map Char.toLower⟩

/-- Characters of a string, upper-cased (Python `str.upper` on ASCII). -/
def strUpper (s : String) : String :=
  ⟨s.data.map Char.toUpper⟩

/-- Drop leading whitespace characters from a character list. -/
def dropLeadingWs : List Char → List Char
  | [] => []
  | c :: cs => if c.isWhitespace then dropLeadingWs cs else c :: cs

/-- Python `str.strip`: remove leading and trailing whitespace. -/
def strStrip (s : String) : String :=
  ⟨((dropLeadingWs ((dropLeadingWs s.data).reverse)).reverse)⟩

/-- Split a character list on a separator character; like Python `str.split(sep)`,
the empty input yields one empty token. -/
def splitOnChar (sep : Char) : List Char → List (List Char)
  | [] => [[]]
  | c :: cs =>
    let r := splitOnChar sep cs
    if c = sep then [] :: r
    else
      match r with
      | [] => [[c]]
      | t :: ts => (c :: t) :: ts

/-- Python `s.split(",")`. -/
def splitCommas (s : String) : List String :=
  (splitOnChar ',' s.data).map (fun l => ⟨l⟩)

/-- The environment: a partial map from variable names to values. -/
def Env : Type := String → Option String

/-- Python `os.getenv(key, default)`. -/
def getenv (env : Env) (key default : String) : String :=
  (env key).getD default

/-- The boolean coercion used by the loader: `value.lower() == "true"`. -/
def parseBool (s : String) : Bool :=
  strLower s == "true"

/-- `MarketType` enumeration (members CRYPTO, EQUITIES, FOREX, FUTURES). -/
inductive MarketType where
  | CRYPTO
  | EQUITIES
  | FOREX
  | FUTURES
deriving DecidableEq, Repr

/-- Python `MarketType[name]`: lookup of an enum member by its name, `none`
models the `KeyError` branch. -/
def MarketType.fromName : String → Option MarketType
  | "CRYPTO" => some .CRYPTO
  | "EQUITIES" => some .EQUITIES
  | "FOREX" => some .FOREX
  | "FUTURES" => some .FUTURES
  | _ => none

/-- `RiskTolerance` enumeration. -/
inductive RiskTolerance where
  | CONSERVATIVE
  | MODERATE
  | AGGRESSIVE
deriving DecidableEq, Repr

/-- Numeric weight of each `RiskTolerance` member (0.25, 0.5, 0.75). -/
def RiskTolerance.value : RiskTolerance → Rat
  | .CONSERVATIVE => 1/4
  | .MODERATE => 1/2
  | .AGGRESSIVE => 3/4

/-- Configuration for individual exchanges (`@dataclass ExchangeConfig`). -/
structure ExchangeConfig where
  name : String
  api_key : String := ""
  api_secret : String := ""
  sandbox : Bool := true
  rate_limit : Int := 1000
  enabled : Bool := false
deriving DecidableEq, Repr

/-- Constructor of `ExchangeConfig` including the `__post_init__` validation:
`raise ValueError` when the name is empty is the `.error` branch. -/
def mkExchangeConfig (name : String) (api_key : String := "")
    (api_secret : String := "") (sandbox : Bool := true)
    (rate_limit : Int := 1000) (enabled : Bool := false) :
    Except String ExchangeConfig :=
  if name = "" then
    .error "Exchange name cannot be empty"
  else
    .ok { name := name, api_key := api_key, api_secret := api_secret,
          sandbox := sandbox, rate_limit := rate_limit, enabled := enabled }

/-- The logging branch of `__post_init__`: in production mode (`not sandbox`)
with a missing credential, a warning is logged (returned here as a list). -/
def postInitWarnings (cfg : ExchangeConfig) : List String :=
  if !cfg.sandbox && !(cfg.api_key != "" && cfg.api_secret != "") then
    ["Exchange " ++ cfg.name ++ ": Missing API credentials for production mode"]
  else
    []

/-- Global trading configuration (`@dataclass TradingConfig`); the float
defaults are represented as exact rationals. -/
structure TradingConfig where
  max_position_size : Rat := 1/10
  daily_loss_limit : Rat := 1/50
  risk_tolerance : RiskTolerance := RiskTolerance.MODERATE
  slippage_tolerance : Rat := 1/200
  minimum_volume : Rat := 10000
  heartbeat_interval : Int := 60
  market_data_refresh : Int := 30
deriving DecidableEq, Repr

/-- The fixed venue list iterated by `_load_exchange_configs`. -/
def exchange_names : List String := ["binance", "coinbase", "kraken", "bybit"]

/-- One iteration of the `_load_exchange_configs` loop: read the four
per-venue variables and construct the `ExchangeConfig`. -/
def loadOneExchange (env : Env) (name : String) :
    Except String (String × ExchangeConfig) :=
  let api_key := getenv env (strUpper name ++ "_API_KEY") ""
  let api_secret := getenv env (strUpper name ++ "_API_SECRET") ""
  let sandbox := parseBool (getenv env (strUpper name ++ "_SANDBOX") "true")
  let enabled := parseBool (getenv env (strUpper name ++ "_ENABLED") "false")
  match mkExchangeConfig name api_key api_secret sandbox 1000 enabled with
  | .error e => .error e
  | .ok cfg => .ok (name, cfg)

/-- The `for name in exchange_names` loop of `_load_exchange_configs`;
an exception from any iteration aborts the whole load. The Python dict
(insertion-ordered) is modelled as an association list. -/
def loadExchangeConfigsAux (env : Env) : List String → Except String (List (String × ExchangeConfig))
  | [] => .ok []
  | name :: rest =>
    match loadOneExchange env name with
    | .error e => .error e
    | .ok entry =>
      match loadExchangeConfigsAux env rest with
      | .error e => .error e
      | .ok tail => .ok (entry :: tail)

/-- `Settings._load_exchange_configs`. -/
def loadExchangeConfigs (env : Env) : Except String (List (String × ExchangeConfig)) :=
  loadExchangeConfigsAux env exchange_names

/-- `Settings._parse_markets`: split on commas, strip and upper-case each
token, keep the tokens that name a `MarketType` member (the `KeyError`
branch drops the token with a logged warning). -/
def parseMarkets (markets_str : String) : List MarketType :=
  (splitCommas markets_str).filterMap
    (fun market => MarketType.fromName (strUpper (strStrip market)))

/-- The `Settings` aggregate: the fields assigned by `Settings._initialize`. -/
structure Settings where
  firebase_credentials : String
  firebase_database : String
  telegram_bot_token : String
  telegram_chat_id : String
  exchanges : List (String × ExchangeConfig)
  trading : TradingConfig
  enabled_markets : List MarketType
  log_level : String
deriving DecidableEq, Repr

/-- `Settings._initialize`: read every named input, with its default, and
assemble the aggregate. -/
def loadSettings (env : Env) : Except String Settings :=
  match loadExchangeConfigs env with
  | .error e => .error e
  | .ok exchanges =>
    .ok { firebase_credentials := getenv env "FIREBASE_CREDENTIALS_PATH" ""
          firebase_database := getenv env "FIREBASE_DATABASE_URL" ""
          telegram_bot_token := getenv env "TELEGRAM_BOT_TOKEN" ""
          telegram_chat_id := getenv env "TELEGRAM_CHAT_ID" ""
          exchanges := exchanges
          trading := {}
          enabled_markets := parseMarkets (getenv env "ENABLED_MARKETS" "CRYPTO")
          log_level := getenv env "LOG_LEVEL" "INFO" }

/-- Modelled from the spec: the third validation rule of
`_validate_configuration` is truncated mid-loop in the source
(`for exchange in enabled_exchanges: if not exchange` ends the file); per
the spec, an enabled exchange with `sandbox=false` and a missing credential
records an error naming that exchange. -/
def credentialError (cfg : ExchangeConfig) : Option String :=
  if !cfg.sandbox && !(cfg.api_key != "" && cfg.api_secret != "") then
    some ("Exchange " ++ cfg.name ++ ": missing API credentials")
  else
    none

/-- `Settings._validate_configuration`: collect error strings for the
violated rules (empty Firebase credentials path; no enabled exchange; and
the spec-modelled per-exchange credential rule over enabled exchanges). -/
def validateConfiguration (s : Settings) : List String :=
  let errs1 : List String :=
    if s.firebase_credentials = "" then ["FIREBASE_CREDENTIALS_PATH not set"] else []
  let enabled_exchanges := s.exchanges.filter (fun p => p.2.enabled)
  let errs2 : List String :=
    if enabled_exchanges.isEmpty then
      ["No exchanges enabled. Set at least one exchange to enabled=true"]
    else []
  errs1 ++ errs2 ++ (enabled_exchanges.map Prod.snd).filterMap credentialError

/-- The four environment variable names read for one venue. -/
def venueKeys (name : String) : List String :=
  [strUpper name ++ "_API_KEY", strUpper name ++ "_API_SECRET",
   strUpper name ++ "_SANDBOX", strUpper name ++ "_ENABLED"]

/-- Every environment variable name the loader reads. -/
def relevantKeys : List String :=
  ["FIREBASE_CREDENTIALS_PATH", "FIREBASE_DATABASE_URL", "TELEGRAM_BOT_TOKEN",
   "TELEGRAM_CHAT_ID", "ENABLED_MARKETS", "LOG_LEVEL"] ++
  (exchange_names.map venueKeys).flatten

/-- Counting an element of a `filterMap` counts the preimages under `f`. -/
lemma count_filterMap_eq_countP {α β : Type} [DecidableEq β]
    (f : α → Option β) (l : List α) (b : β) :
    (l.filterMap f).count b = l.countP (fun a => f a == some b) := by
  induction l with
  | nil => rfl
  | cons a l ih =>
    cases h : f a with
    | none =>
      simp [List.filterMap_cons, h, List.countP_cons, ih]
    | some b' =>
      by_cases hb : b' = b <;>
        simp [List.filterMap_cons, h, List.countP_cons, List.count_cons, ih, hb]

section Claims

/-- C1: if `firebase_credentials` is empty and no exchange in the mapping is
enabled, `_validate_configuration` produces a list containing (at least) the
two distinct error strings, one per violated rule, returned rather than
raised. -/
theorem validate_missing_firebase_and_no_enabled (s : Settings)
    (h1 : s.firebase_credentials = "")
    (h2 : ∀ p ∈ s.exchanges, p.2.enabled = false) :
    "FIREBASE_CREDENTIALS_PATH not set" ∈ validateConfiguration s ∧
    "No exchanges enabled. Set at least one exchange to enabled=true"
      ∈ validateConfiguration s ∧
    "FIREBASE_CREDENTIALS_PATH not set" ≠
      "No exchanges enabled. Set at least one exchange to enabled=true" := by
  have hfilter : s.exchanges.filter (fun p => p.2.enabled) = [] := by
    rw [List.filter_eq_nil_iff]
    intro p hp
    simp [h2 p hp]
  refine ⟨?_, ?_, by decide⟩ <;> simp [validateConfiguration, h1, hfilter]

/-- Witness for C1 at a concrete settings value with empty credentials and a
single disabled exchange. -/
theorem validate_missing_firebase_and_no_enabled_witness :
    "FIREBASE_CREDENTIALS_PATH not set" ∈ validateConfiguration
      { firebase_credentials := "", firebase_database := "",
        telegram_bot_token := "", telegram_chat_id := "",
        exchanges := [("binance", { name := "binance" })], trading := {},
        enabled_markets := [MarketType.CRYPTO], log_level := "INFO" } ∧
    "No exchanges enabled. Set at least one exchange to enabled=true"
      ∈ validateConfiguration
      { firebase_credentials := "", firebase_database := "",
        telegram_bot_token := "", telegram_chat_id := "",
        exchanges := [("binance", { name := "binance" })], trading := {},
        enabled_markets := [MarketType.CRYPTO], log_level := "INFO" } ∧
    "FIREBASE_CREDENTIALS_PATH not set" ≠
      "No exchanges enabled. Set at least one exchange to enabled=true" :=
  validate_missing_firebase_and_no_enabled _ rfl (by decide)

/-- C2: `ExchangeConfig` construction fails exactly when the name is the
empty string, whatever the other field values are. -/
theorem mkExchangeConfig_ok_iff_name_nonempty (name api_key api_secret : String)
    (sandbox : Bool) (rate_limit : Int) (enabled : Bool) :
    (mkExchangeConfig name api_key api_secret sandbox rate_limit enabled).isOk
      = (name != "") := by
  simp only [mkExchangeConfig]
  by_cases h : name = ""
  · subst h; rfl
  · rw [if_neg h, bne_iff_ne.mpr h]
    rfl

/-- C3: when none of the per-venue environment variables is present, every
venue of the fixed list loads with empty credentials, sandbox on and
enabled off. -/
theorem loadExchangeConfigs_defaults (env : Env)
    (h : ∀ name ∈ exchange_names, ∀ k ∈ venueKeys name, env k = none) :
    loadExchangeConfigs env = .ok (exchange_names.map (fun name =>
      (name, { name := name, api_key := "", api_secret := "", sandbox := true,
               rate_limit := 1000, enabled := false }))) := by
  have h1 : env (strUpper "binance" ++ "_API_KEY") = none :=
    h "binance" (by decide) _ (by simp [venueKeys])
  have h2 : env (strUpper "binance" ++ "_API_SECRET") = none :=
    h "binance" (by decide) _ (by simp [venueKeys])
  have h3 : env (strUpper "binance" ++ "_SANDBOX") = none :=
    h "binance" (by decide) _ (by simp [venueKeys])
  have h4 : env (strUpper "binance" ++ "_ENABLED") = none :=
    h "binance" (by decide) _ (by simp [venueKeys])
  have h5 : env (strUpper "coinbase" ++ "_API_KEY") = none :=
    h "coinbase" (by decide) _ (by simp [venueKeys])
  have h6 : env (strUpper "coinbase" ++ "_API_SECRET") = none :=
    h "coinbase" (by decide) _ (by simp [venueKeys])
  have h7 : env (strUpper "coinbase" ++ "_SANDBOX") = none :=
    h "coinbase" (by decide) _ (by simp [venueKeys])
  have h8 : env (strUpper "coinbase" ++ "_ENABLED") = none :=
    h "coinbase" (by decide) _ (by simp [venueKeys])
  have h9 : env (strUpper "kraken" ++ "_API_KEY") = none :=
    h "kraken" (by decide) _ (by simp [venueKeys])
  have h10 : env (strUpper "kraken" ++ "_API_SECRET") = none :=
    h "kraken" (by decide) _ (by simp [venueKeys])
  have h11 : env (strUpper "kraken" ++ "_SANDBOX") = none :=
    h "kraken" (by decide) _ (by simp [venueKeys])
  have h12 : env (strUpper "kraken" ++ "_ENABLED") = none :=
    h "kraken" (by decide) _ (by simp [venueKeys])
  have h13 : env (strUpper "bybit" ++ "_API_KEY") = none :=
    h "bybit" (by decide) _ (by simp [venueKeys])
  have h14 : env (strUpper "bybit" ++ "_API_SECRET") = none :=
    h "bybit" (by decide) _ (by simp [venueKeys])
  have h15 : env (strUpper "bybit" ++ "_SANDBOX") = none :=
    h "bybit" (by decide) _ (by simp [venueKeys])
  have h16 : env (strUpper "bybit" ++ "_ENABLED") = none :=
    h "bybit" (by decide) _ (by simp [venueKeys])
  simp only [loadExchangeConfigs, exchange_names, loadExchangeConfigsAux,
    loadOneExchange, getenv]
  rw [h1, h2, h3, h4, h5, h6, h7, h8, h9, h10, h11, h12, h13, h14, h15, h16]
  rfl

/-- Witness for C3 at the empty environment. -/
theorem loadExchangeConfigs_defaults_witness :
    loadExchangeConfigs (fun _ => none) = .ok (exchange_names.map (fun name =>
      (name, { name := name, api_key := "", api_secret := "", sandbox := true,
               rate_limit := 1000, enabled := false }))) :=
  loadExchangeConfigs_defaults (fun _ => none) (fun _ _ _ _ => rfl)

/-- C4: `_parse_markets` on the input string of the spec example keeps the
recognized members, in input order, and drops the unknown token. -/
theorem parseMarkets_example :
    parseMarkets "crypto, bogus, FOREX" = [MarketType.CRYPTO, MarketType.FOREX] := by
  decide

/-- C5 counterexample: duplicate tokens are not dropped; on the input
string CRYPTO,CRYPTO the market type CRYPTO appears twice in the result,
so it is false that each market type appears at most once. -/
theorem parseMarkets_duplicates_kept :
    ¬ ((parseMarkets "CRYPTO,CRYPTO").count MarketType.CRYPTO ≤ 1) := by
  decide

/-- C5 amended: the result of `_parse_markets` keeps one element per
recognized token; the number of occurrences of a market type equals the
number of input tokens resolving to it (so duplicates are retained, not
dropped). -/
theorem parseMarkets_count_eq_token_count (s : String) (m : MarketType) :
    (parseMarkets s).count m =
      (splitCommas s).countP
        (fun t => MarketType.fromName (strUpper (strStrip t)) == some m) := by
  simp [parseMarkets, count_filterMap_eq_countP]

/-- C6: the empty input splits into a single empty token that fails the
enumeration lookup, so `_parse_markets` returns the empty sequence. -/
theorem parseMarkets_empty : parseMarkets "" = [] := by decide

/-- C7: with a non-empty name, sandbox off and enabled on, construction
succeeds even when a credential is empty; the missing production
credentials surface only as a warning. -/
theorem production_missing_credentials_warns (name api_key api_secret : String)
    (rate_limit : Int) (hname : name ≠ "")
    (hcred : api_key = "" ∨ api_secret = "") :
    ∃ cfg : ExchangeConfig,
      mkExchangeConfig name api_key api_secret false rate_limit true = .ok cfg ∧
      postInitWarnings cfg ≠ [] := by
  refine ⟨{ name := name, api_key := api_key, api_secret := api_secret,
            sandbox := false, rate_limit := rate_limit, enabled := true },
          ?_, ?_⟩
  · simp [mkExchangeConfig, hname]
  · rcases hcred with h | h <;> simp [postInitWarnings, h]

/-- Witness for C7 at a concrete production configuration with empty
credentials. -/
theorem production_missing_credentials_warns_witness :
    ∃ cfg : ExchangeConfig,
      mkExchangeConfig "binance" "" "" false 1000 true = .ok cfg ∧
      postInitWarnings cfg ≠ [] :=
  production_missing_credentials_warns "binance" "" "" 1000 (by decide)
    (Or.inl rfl)

/-- C8: two environments agreeing on every variable the loader reads
produce identical `Settings` aggregates. -/
theorem loadSettings_deterministic (env1 env2 : Env)
    (h : ∀ k ∈ relevantKeys, env1 k = env2 k) :
    loadSettings env1 = loadSettings env2 := by
  have g1 : env1 "FIREBASE_CREDENTIALS_PATH" = env2 "FIREBASE_CREDENTIALS_PATH" :=
    h _ (by decide)
  have g2 : env1 "FIREBASE_DATABASE_URL" = env2 "FIREBASE_DATABASE_URL" :=
    h _ (by decide)
  have g3 : env1 "TELEGRAM_BOT_TOKEN" = env2 "TELEGRAM_BOT_TOKEN" :=
    h _ (by decide)
  have g4 : env1 "TELEGRAM_CHAT_ID" = env2 "TELEGRAM_CHAT_ID" :=
    h _ (by decide)
  have g5 : env1 "ENABLED_MARKETS" = env2 "ENABLED_MARKETS" := h _ (by decide)
  have g6 : env1 "LOG_LEVEL" = env2 "LOG_LEVEL" := h _ (by decide)
  have h1 : env1 (strUpper "binance" ++ "_API_KEY")
      = env2 (strUpper "binance" ++ "_API_KEY") := h _ (by decide)
  have h2 : env1 (strUpper "binance" ++ "_API_SECRET")
      = env2 (strUpper "binance" ++ "_API_SECRET") := h _ (by decide)
  have h3 : env1 (strUpper "binance" ++ "_SANDBOX")
      = env2 (strUpper "binance" ++ "_SANDBOX") := h _ (by decide)
  have h4 : env1 (strUpper "binance" ++ "_ENABLED")
      = env2 (strUpper "binance" ++ "_ENABLED") := h _ (by decide)
  have h5 : env1 (strUpper "coinbase" ++ "_API_KEY")
      = env2 (strUpper "coinbase" ++ "_API_KEY") := h _ (by decide)
  have h6 : env1 (strUpper "coinbase" ++ "_API_SECRET")
      = env2 (strUpper "coinbase" ++ "_API_SECRET") := h _ (by decide)
  have h7 : env1 (strUpper "coinbase" ++ "_SANDBOX")
      = env2 (strUpper "coinbase" ++ "_SANDBOX") := h _ (by decide)
  have h8 : env1 (strUpper "coinbase" ++ "_ENABLED")
      = env2 (strUpper "coinbase" ++ "_ENABLED") := h _ (by decide)
  have h9 : env1 (strUpper "kraken" ++ "_API_KEY")
      = env2 (strUpper "kraken" ++ "_API_KEY") := h _ (by decide)
  have h10 : env1 (strUpper "kraken" ++ "_API_SECRET")
      = env2 (strUpper "kraken" ++ "_API_SECRET") := h _ (by decide)
  have h11 : env1 (strUpper "kraken" ++ "_SANDBOX")
      = env2 (strUpper "kraken" ++ "_SANDBOX") := h _ (by decide)
  have h12 : env1 (strUpper "kraken" ++ "_ENABLED")
      = env2 (strUpper "kraken" ++ "_ENABLED") := h _ (by decide)
  have h13 : env1 (strUpper "bybit" ++ "_API_KEY")
      = env2 (strUpper "bybit" ++ "_API_KEY") := h _ (by decide)
  have h14 : env1 (strUpper "bybit" ++ "_API_SECRET")
      = env2 (strUpper "bybit" ++ "_API_SECRET") := h _ (by decide)
  have h15 : env1 (strUpper "bybit" ++ "_SANDBOX")
      = env2 (strUpper "bybit" ++ "_SANDBOX") := h _ (by decide)
  have h16 : env1 (strUpper "bybit" ++ "_ENABLED")
      = env2 (strUpper "bybit" ++ "_ENABLED") := h _ (by decide)
  simp only [loadSettings, loadExchangeConfigs, exchange_names,
    loadExchangeConfigsAux, loadOneExchange, getenv]
  rw [g1, g2, g3, g4, g5, g6, h1, h2, h3, h4, h5, h6, h7, h8, h9, h10, h11,
    h12, h13, h14, h15, h16]

/-- An environment with no variable set. -/
def envEmpty : Env := fun _ => none

/-- An environment differing from `envEmpty` only on a variable the loader
never reads. -/
def envExtra : Env := fun k => if k = "UNRELATED_VARIABLE" then some "x" else none

/-- Witness for C8: the two concrete environments agree on every read
variable, and the loads coincide. -/
theorem loadSettings_deterministic_witness :
    (∀ k ∈ relevantKeys, envEmpty k = envExtra k) ∧
      loadSettings envEmpty = loadSettings envExtra :=
  ⟨by decide, loadSettings_deterministic envEmpty envExtra (by decide)⟩

/-- Every configuration produced by the loader loop has the dataclass
default rate limit of 1000, whatever the environment. -/
lemma loadOneExchange_rate_limit (env : Env) (name : String)
    (entry : String × ExchangeConfig)
    (h : loadOneExchange env name = .ok entry) :
    entry.2.rate_limit = 1000 := by
  by_cases hn : name = ""
  · simp [loadOneExchange, mkExchangeConfig, hn] at h
  · simp only [loadOneExchange, mkExchangeConfig, if_neg hn,
      Except.ok.injEq] at h
    subst h
    rfl

lemma loadExchangeConfigsAux_rate_limit (env : Env) (names : List String)
    (cfgs : List (String × ExchangeConfig))
    (h : loadExchangeConfigsAux env names = .ok cfgs) :
    ∀ p ∈ cfgs, p.2.rate_limit = 1000 := by
  induction names generalizing cfgs with
  | nil =>
    simp only [loadExchangeConfigsAux, Except.ok.injEq] at h
    subst h
    simp
  | cons name rest ih =>
    cases hone : loadOneExchange env name with
    | error e => simp [loadExchangeConfigsAux, hone] at h
    | ok entry =>
      cases htail : loadExchangeConfigsAux env rest with
      | error e => simp [loadExchangeConfigsAux, hone, htail] at h
      | ok tail =>
        simp only [loadExchangeConfigsAux, hone, htail, Except.ok.injEq] at h
        subst h
        intro p hp
        rcases List.mem_cons.mp hp with hp | hp
        · subst hp
          exact loadOneExchange_rate_limit env name p hone
        · exact ih tail htail p hp

/-- C9: every `ExchangeConfig` in the mapping produced by
`_load_exchange_configs` has `rate_limit = 1000`, for every environment. -/
theorem loadExchangeConfigs_rate_limit (env : Env)
    (cfgs : List (String × ExchangeConfig))
    (h : loadExchangeConfigs env = .ok cfgs) :
    ∀ p ∈ cfgs, p.2.rate_limit = 1000 :=
  loadExchangeConfigsAux_rate_limit env exchange_names cfgs h

/-- Witness for C9 at the empty environment and the binance entry. -/
theorem loadExchangeConfigs_rate_limit_witness :
    (("binance", ({ name := "binance" } : ExchangeConfig))).2.rate_limit
      = 1000 :=
  loadExchangeConfigs_rate_limit envEmpty
    (exchange_names.map (fun name =>
      (name, { name := name, api_key := "", api_secret := "", sandbox := true,
               rate_limit := 1000, enabled := false })))
    rfl ("binance", { name := "binance" }) (by decide)

/-- C10: the boolean coercion of the per-venue SANDBOX and ENABLED
variables yields true exactly when the lower-cased value is the string
true; any other value, including 1, yes and TRUE with a trailing space,
yields false. -/
theorem parseBool_true_iff :
    (∀ s : String, parseBool s = true ↔ strLower s = "true") ∧
    parseBool "1" = false ∧ parseBool "yes" = false ∧
    parseBool "TRUE " = false ∧ parseBool "TRUE" = true ∧
    parseBool "true" = true := by
  refine ⟨fun s => ?_, by decide, by decide, by decide, by decide, by decide⟩
  simp [parseBool]

end Claims

end ConfigSettings
